import Mathlib

/-!
# Verification of `hatch.cli.application` (file `src/hatch/cli/application.py`)

A shallow embedding of the `Application` class's core logic:

* the shell-command execution engine `run_shell_commands` (lines 101-132),
* the subprocess control channel `attach_builder` (lines 134-151) and
  `read_builder` (lines 153-170),
* the provisioning state machine `prepare_environment` (lines 73-99),
* the plugin-dependency installer `ensure_plugin_dependencies` (lines 177-204),
* the `abort` primitive (lines 239-242) and the `SafeApplication`
  capability table (lines 248-265).

Python strings are Lean `String`s; the payload decoder
(`pickle.loads(bytes.fromhex(...))`) is abstracted as a parameter
`decode : String → Invocation` since serialization is out of scope; process
exit codes are `Int`; side effects are modelled as explicit event traces.
-/

/-! ## Python string primitives used by the source -/

/-- Split a character list at the first `':'`: `none` when there is no colon,
otherwise the characters before and after it. -/
def splitFirstColon : List Char → Option (List Char × List Char)
  | [] => none
  | c :: rest =>
      if c = ':' then some ([], rest)
      else
        match splitFirstColon rest with
        | none => none
        | some (pre, post) => some (c :: pre, post)

/-- Python `line.partition(':')`: a 3-tuple of the text before the first
colon, the separator (empty when absent), and the text after it. -/
def strPartition (s : String) : String × String × String :=
  match splitFirstColon s.data with
  | none => (s, "", "")
  | some (pre, post) => (⟨pre⟩, ":", ⟨post⟩)

/-- Python `s.rstrip()`: remove trailing whitespace. -/
def rstrip (s : String) : String :=
  ⟨(s.data.reverse.dropWhile Char.isWhitespace).reverse⟩

/-- Python `command.startswith('- ')`. -/
def pyStartsDash (s : String) : Bool :=
  match s.data with
  | '-' :: ' ' :: _ => true
  | _ => false

/-- Python `command[2:]`. -/
def dropTwo (s : String) : String :=
  ⟨s.data.drop 2⟩

/-! ## Data model of the control channel -/

/-- A decoded tagged-line payload: the 3-tuple
`(method, args, kwargs)` produced by `pickle.loads(bytes.fromhex(...))`
(lines 144 and 163).  Arguments are modelled as strings, which is how the
source consumes them. -/
structure Invocation where
  method : String
  args : List String
  kwargs : List (String × String)
deriving DecidableEq, Repr

/-- A child builder process after it has run to completion: the lines
produced by `self.platform.stream_process_output(process)` and the final
`process.returncode`. -/
structure BuilderProcess where
  lines : List String
  returncode : Int
deriving DecidableEq, Repr

/-- The sentinel test `(strPartition line).1 == "__HATCH__"` of
lines 139-140 and 159-160. -/
def isTagged (line : String) : Bool :=
  (strPartition line).1 == "__HATCH__"

/-- The text after the first colon: the `procedure` variable of
lines 139 and 159. -/
def payloadOf (line : String) : String :=
  (strPartition line).2.2

/-! ## Observable effects -/

/-- Parent-side effects performed while consuming a builder stream:
`display_info`, `display_error`, `process.communicate()`, a
`getattr(self, method)(*args, **kwargs)` dispatch, and the call of the
configured exit function. -/
inductive Event where
  | displayInfo (text : String) (endStr : String)
  | displayError (text : String)
  | communicate
  | dispatch (method : String) (args : List String) (kwargs : List (String × String))
  | exit (code : Int)
deriving DecidableEq, Repr

/-- Whether an event is an invocation of the exit function. -/
def Event.isExit : Event → Bool
  | .exit _ => true
  | _ => false

/-- The `abort` primitive (lines 239-242): display the text as an error
when it is non-empty (Python truthiness), then call the exit function with
the code.  The source's default arguments are `text=''` and `code=1`. -/
def abortEvents (text : String) (code : Int) : List Event :=
  (if text ≠ "" then [Event.displayError text] else []) ++ [Event.exit code]

/-! ## The shell-command execution engine (`run_shell_commands`) -/

/-- The environment collaborator as consumed by `run_shell_commands`:
`resolve_commands` (which may fail with an exception message) and
`run_shell_command` (returning the process exit code).  Each is a function,
so a command's exit code is determined by its resolved text. -/
structure ShellEnv where
  resolve : List String → Except String (List String)
  run : String → Int

/-- Python truthiness of the `first_error_code` variable
(an `int` or `None`). -/
def pyTruthy : Option Int → Bool
  | none => false
  | some c => c != 0

/-- Python `first_error_code or process.returncode` (line 123), stored back
into `first_error_code`. -/
def pyOrElse (firstErr : Option Int) (code : Int) : Option Int :=
  if pyTruthy firstErr then firstErr else some code

/-- Termination of one `run_shell_commands` call: normal return, or a call
of `self.abort` carrying the text argument passed (empty when omitted) and
the exit code. -/
inductive RunResult where
  | ok
  | aborted (text : String) (code : Int)
deriving DecidableEq, Repr

/-- Strip the continue-on-error marker (lines 117-119): when the command
starts with `"- "` the first two characters are removed. -/
def stripCmd (cmd : String) : String :=
  if pyStartsDash cmd then dropTwo cmd else cmd

/-- The command loop of `run_shell_commands` (lines 110-132) over already
resolved commands, carrying the `first_error_code` accumulator.  Returns
the list of command strings actually executed (as passed to
`run_shell_command`), the final `first_error_code`, and how the call
ended.  The informational `display` of line 114 is elided (terminal
rendering is out of scope). -/
def runLoop (env : ShellEnv) (force_continue show_code_on_error : Bool) :
    List String → Option Int → List String × Option Int × RunResult
  | [], firstErr =>
      match firstErr with
      | some c =>
          if c ≠ 0 ∧ force_continue then ([], some c, .aborted "" c)
          else ([], some c, .ok)
      | none => ([], none, .ok)
  | cmd :: rest, firstErr =>
      let continue_on_error := force_continue || pyStartsDash cmd
      let command := stripCmd cmd
      let code := env.run command
      if code ≠ 0 then
        let firstErr' := pyOrElse firstErr code
        if continue_on_error then
          let r := runLoop env force_continue show_code_on_error rest firstErr'
          (command :: r.1, r.2)
        else if show_code_on_error then
          ([command], firstErr', .aborted ("Failed with exit code: " ++ toString code) code)
        else
          ([command], firstErr', .aborted "" code)
      else
        let r := runLoop env force_continue show_code_on_error rest firstErr
        (command :: r.1, r.2)

/-- Embedding of `run_shell_commands` (lines 101-132): resolve the commands — aborting
with the exception's message and the default code 1 on failure — then run
the loop with `first_error_code = None`. -/
def run_shell_commands (env : ShellEnv) (commands : List String)
    (force_continue show_code_on_error : Bool) :
    List String × Option Int × RunResult :=
  match env.resolve commands with
  | .error e => ([], none, .aborted e 1)
  | .ok resolved => runLoop env force_continue show_code_on_error resolved none

/-- The exit code of the first command in the list that fails, as the spec
describes it (the claim-side characterization compared against `runLoop`). -/
def specFirstFailureCode (env : ShellEnv) : List String → Option Int
  | [] => none
  | cmd :: rest =>
      if env.run (stripCmd cmd) ≠ 0 then some (env.run (stripCmd cmd))
      else specFirstFailureCode env rest

/-! ## The control channel: forwarding mode (`attach_builder`) -/

/-- Handling of one stream line by `attach_builder` (lines 138-148): a plain
line is forwarded verbatim via `display_info(line, end='')`; a tagged line
is decoded (the payload right-stripped first), the subprocess is drained
with `communicate()` when the decoded method is `'abort'`, and then
`getattr(self, method)(*args, **kwargs)` is dispatched. -/
def attach_line (decode : String → Invocation) (line : String) : List Event :=
  let p := strPartition line
  if p.1 ≠ "__HATCH__" then [Event.displayInfo line ""]
  else
    let inv := decode (rstrip p.2.2)
    (if inv.method = "abort" then [Event.communicate] else []) ++
      [Event.dispatch inv.method inv.args inv.kwargs]

/-- Embedding of `attach_builder` (lines 134-151): consume every stream line in order,
then, when the process exit code is non-zero, call `self.abort` with that
code and the default empty text. -/
def attach_builder (decode : String → Invocation) (p : BuilderProcess) : List Event :=
  (p.lines.map (attach_line decode)).flatten ++
    (if p.returncode ≠ 0 then abortEvents "" p.returncode else [])

/-! ## The control channel: capture mode (`read_builder`) -/

/-- How one call to `read_builder` ends: the buffer is returned, or
`self.abort(output, code=...)` is called with the buffer as text. -/
inductive ReadResult where
  | returned (output : String)
  | aborted (text : String) (code : Int)
deriving DecidableEq, Repr

/-- The string appended to the buffer for one stream line (lines 159-164):
a plain line verbatim, and for a tagged line `args[0]` of the decoded
payload (not right-stripped here) — undefined (`none`) when the decoded
positional-argument sequence is empty, as `args[0]` then raises. -/
def readPiece (decode : String → Invocation) (line : String) : Option String :=
  let p := strPartition line
  if p.1 ≠ "__HATCH__" then some line
  else ((decode p.2.2).args).head?

/-- All buffer pieces for a line list, in order; `none` as soon as any
tagged line's decoded argument sequence is empty. -/
def readPieces (decode : String → Invocation) : List String → Option (List String)
  | [] => some []
  | l :: rest =>
      match readPiece decode l, readPieces decode rest with
      | some s, some ss => some (s :: ss)
      | _, _ => none

/-- Embedding of `read_builder` (lines 153-170): accumulate the buffer, then return it
on a zero exit code and otherwise call `self.abort(output, code=returncode)`.
`none` models the `IndexError` raised by `args[0]` on an empty argument
sequence. -/
def read_builder (decode : String → Invocation) (p : BuilderProcess) :
    Option ReadResult :=
  match readPieces decode p.lines with
  | none => none
  | some pieces =>
      let output := String.join pieces
      some (if p.returncode ≠ 0 then ReadResult.aborted output p.returncode
            else ReadResult.returned output)

/-! ## The capability facade (`SafeApplication`, lines 248-265) -/

/-- The names bound by `SafeApplication.__init__`: the fixed table of
application operations exposed to environment plugins. -/
def SafeApplication.table : List String :=
  ["abort", "display", "display_critical", "display_info", "display_error",
   "display_success", "display_waiting", "display_warning", "display_debug",
   "display_mini_header", "prompt", "confirm", "status", "status_if",
   "read_builder"]

/-! ## The provisioning state machine (`prepare_environment`) -/

/-- The environment collaborator as consumed by `prepare_environment`
(lines 73-99): the predicates and command lists it branches on. -/
structure ProvEnv where
  exists_ : Bool
  skip_install : Bool
  dev_mode : Bool
  pre_install_commands : List String
  post_install_commands : List String
  dependencies_in_sync : Bool
deriving DecidableEq, Repr

/-- The environment operations `prepare_environment` can invoke, in call
order. -/
inductive ProvAction where
  | create
  | runCommands (source : String) (commands : List String)
  | installProjectDevMode
  | installProject
  | checkDependencies
  | syncDependencies
deriving DecidableEq, Repr

/-- Embedding of `prepare_environment` (lines 73-99) as the sequence of environment
operations it performs.  The `self.status(...)` context managers wrapping
each stage are terminal rendering and are elided; command batches run via
`run_shell_commands` are recorded with their source tag. -/
def prepare_environment (env : ProvEnv) : List ProvAction :=
  (if env.exists_ then []
   else
     [ProvAction.create] ++
       (if env.skip_install then []
        else
          (if env.pre_install_commands ≠ [] then
            [ProvAction.runCommands "pre-install" env.pre_install_commands]
           else []) ++
          (if env.dev_mode then [ProvAction.installProjectDevMode]
           else [ProvAction.installProject]) ++
          (if env.post_install_commands ≠ [] then
            [ProvAction.runCommands "post-install" env.post_install_commands]
           else []))) ++
  ([ProvAction.checkDependencies] ++
    (if env.dependencies_in_sync then [] else [ProvAction.syncDependencies]))

/-! ## The plugin-dependency installer (`ensure_plugin_dependencies`) -/

/-- Context for `ensure_plugin_dependencies` (lines 177-204):
`sys.executable`, the current verbosity, the external
`dependencies_in_sync` predicate from `hatchling.dep.core`, and the shape
of the verbosity flags as a function of the adjusted verbosity level
(see `add_verbosity_flag`).  Dependency specifications are modelled as the
strings `str(dependency)` appended to the command. -/
structure InstallerCtx where
  executable : String
  verbosity : Int
  dependencies_in_sync : List String → Bool
  vflag : Int → List String

/-- Modelled from the spec: `add_verbosity_flag` (from `hatch.env.utils`,
whose source is not part of this repository snapshot) appends to the
command "a verbosity flag derived from the current verbosity level
adjusted by a fixed offset"; the flag text itself is not specified, so it
is abstracted as `vflag` applied to the adjusted level. -/
def add_verbosity_flag (vflag : Int → List String) (command : List String)
    (verbosity adjustment : Int) : List String :=
  command ++ vflag (verbosity + adjustment)

/-- Observable steps of `ensure_plugin_dependencies`: the status display
and the checked installer invocation. -/
inductive InstallAction where
  | statusShow (text : String)
  | checkCommand (command : List String)
deriving DecidableEq, Repr

/-- Embedding of `ensure_plugin_dependencies` (lines 177-204): no-op on an empty
dependency list or when the dependencies are already in sync; otherwise
build the pip invocation, add the verbosity flag with adjustment `-1`,
append each dependency, and run it as a checked command under a status
indicator. -/
def ensure_plugin_dependencies (ctx : InstallerCtx) (dependencies : List String)
    (wait_message : String) : List InstallAction :=
  if dependencies = [] then []
  else if ctx.dependencies_in_sync dependencies then []
  else
    let command := [ctx.executable, "-u", "-m", "pip", "install",
      "--disable-pip-version-check", "--no-python-version-warning"]
    let command := add_verbosity_flag ctx.vflag command ctx.verbosity (-1)
    let command := command ++ dependencies
    [InstallAction.statusShow wait_message, InstallAction.checkCommand command]

/-! ## Concrete collaborators used by the witnesses -/

/-- A resolver that succeeds identically, with two failing commands:
`fail1` exits 2 and `fail2` exits 3. -/
def envContinue : ShellEnv where
  resolve := fun cs => .ok cs
  run := fun c => if c = "fail1" then 2 else if c = "fail2" then 3 else 0

/-- An environment where only `boom` fails, with exit code 7. -/
def envBoom : ShellEnv where
  resolve := fun cs => .ok cs
  run := fun c => if c = "boom" then 7 else 0

/-- An environment where every command succeeds. -/
def envOkAll : ShellEnv where
  resolve := fun cs => .ok cs
  run := fun _ => 0

/-- An environment whose resolver fails with an empty exception message. -/
def envResolveFail : ShellEnv where
  resolve := fun _ => .error ""
  run := fun _ => 0

/-- A decoder whose payloads all name `get_environment`, an `Application`
method outside the `SafeApplication` table. -/
def decodeGet : String → Invocation := fun _ => ⟨"get_environment", [], []⟩

/-- A decoder mapping the payload `aabb` to `display_info('world')`. -/
def decodeInfo : String → Invocation :=
  fun s => if s = "aabb" then ⟨"display_info", ["world"], []⟩ else ⟨"", [], []⟩

/-- A decoder mapping the payload `00` to an `abort('stop')` invocation. -/
def decodeAbort : String → Invocation :=
  fun s => if s = "00" then ⟨"abort", ["stop"], []⟩ else ⟨"", [], []⟩

/-- A decoder mapping the payload `ff` to `('x', ['b'], {})`. -/
def decodeCap : String → Invocation :=
  fun s => if s = "ff" then ⟨"x", ["b"], []⟩ else ⟨"", [], []⟩

/-- A decoder whose decoded invocations carry no positional arguments. -/
def decodeNoArgs : String → Invocation := fun _ => ⟨"x", [], []⟩

/-- A concrete installer context. -/
def ctxW : InstallerCtx where
  executable := "python"
  verbosity := 0
  dependencies_in_sync := fun deps => deps = ["ok-dep"]
  vflag := fun n => if n < 0 then ["-q"] else []

/-! ## Unfolding lemmas for the command loop -/

theorem runLoop_nil (env : ShellEnv) (fc sc : Bool) (fe : Option Int) :
    runLoop env fc sc [] fe =
      match fe with
      | some c =>
          if c ≠ 0 ∧ fc then ([], some c, .aborted "" c) else ([], some c, .ok)
      | none => ([], none, .ok) := rfl

theorem runLoop_cons (env : ShellEnv) (fc sc : Bool) (cmd : String)
    (rest : List String) (fe : Option Int) :
    runLoop env fc sc (cmd :: rest) fe =
      if env.run (stripCmd cmd) ≠ 0 then
        if fc || pyStartsDash cmd then
          (stripCmd cmd ::
            (runLoop env fc sc rest (pyOrElse fe (env.run (stripCmd cmd)))).1,
           (runLoop env fc sc rest (pyOrElse fe (env.run (stripCmd cmd)))).2)
        else if sc then
          ([stripCmd cmd], pyOrElse fe (env.run (stripCmd cmd)),
           .aborted ("Failed with exit code: " ++ toString (env.run (stripCmd cmd)))
             (env.run (stripCmd cmd)))
        else
          ([stripCmd cmd], pyOrElse fe (env.run (stripCmd cmd)),
           .aborted "" (env.run (stripCmd cmd)))
      else
        (stripCmd cmd :: (runLoop env fc sc rest fe).1,
         (runLoop env fc sc rest fe).2) := rfl

theorem specFirstFailureCode_ne_zero (env : ShellEnv) (cmds : List String) (c : Int)
    (h : specFirstFailureCode env cmds = some c) : c ≠ 0 := by
  induction cmds with
  | nil => simp [specFirstFailureCode] at h
  | cons cmd rest ih =>
      rw [specFirstFailureCode] at h
      split at h
      · rename_i hne
        cases h
        exact hne
      · exact ih h

theorem runLoop_truthy_fixed (env : ShellEnv) (fc sc : Bool) (cmds : List String) :
    ∀ fe, pyTruthy fe = true → (runLoop env fc sc cmds fe).2.1 = fe := by
  induction cmds with
  | nil =>
      intro fe hfe
      cases fe with
      | none => simp [pyTruthy] at hfe
      | some c => simp only [runLoop_nil]; split <;> rfl
  | cons cmd rest ih =>
      intro fe hfe
      rw [runLoop_cons]
      have hOr : pyOrElse fe (env.run (stripCmd cmd)) = fe := by
        simp [pyOrElse, hfe]
      split
      · split
        · rw [hOr]; exact ih fe hfe
        · split <;> simp [hOr]
      · exact ih fe hfe

theorem runLoop_none_fe (env : ShellEnv) (fc sc : Bool) (cmds : List String) :
    (runLoop env fc sc cmds none).2.1 = specFirstFailureCode env cmds := by
  induction cmds with
  | nil => rfl
  | cons cmd rest ih =>
      rw [runLoop_cons, specFirstFailureCode]
      split
      · rename_i hne
        have hOr : pyOrElse none (env.run (stripCmd cmd)) = some (env.run (stripCmd cmd)) := by
          simp [pyOrElse, pyTruthy]
        split
        · rw [hOr]
          exact runLoop_truthy_fixed env fc sc rest _ (by simp [pyTruthy, hne])
        · split <;> simp [hOr]
      · exact ih

theorem runLoop_force_executed (env : ShellEnv) (sc : Bool) (cmds : List String) :
    ∀ fe, (runLoop env true sc cmds fe).1 = cmds.map stripCmd := by
  induction cmds with
  | nil =>
      intro fe
      cases fe with
      | none => rfl
      | some c => simp only [runLoop_nil]; split <;> rfl
  | cons cmd rest ih =>
      intro fe
      rw [runLoop_cons]
      simp only [Bool.true_or, if_true]
      split
      · simp [ih]
      · simp [ih]

theorem runLoop_force_result (env : ShellEnv) (sc : Bool) (cmds : List String) :
    ∀ fe, (runLoop env true sc cmds fe).2.2 =
      match (runLoop env true sc cmds fe).2.1 with
      | some c => if c ≠ 0 then RunResult.aborted "" c else RunResult.ok
      | none => RunResult.ok := by
  induction cmds with
  | nil =>
      intro fe
      cases fe with
      | none => rfl
      | some c =>
          simp only [runLoop_nil]
          by_cases hc : c ≠ 0 <;> simp [hc]
  | cons cmd rest ih =>
      intro fe
      rw [runLoop_cons]
      simp only [Bool.true_or, if_true]
      split
      · exact ih _
      · exact ih _

/-! ## Claim C2: `first_error_code` is write-once and drives the final abort -/

/-- C2: in `run_shell_commands`, `first_error_code` is assigned at most
once — to the exit code of the first failing command, never overwritten by
later commands (a truthy accumulator is a fixed point of the loop) — and
when `force_continue` is true every command still executes and, if any
failed, the batch ends by aborting with the first failure's exit code and
no message. -/
theorem runLoop_first_error_code (env : ShellEnv) (fc sc : Bool)
    (cmds : List String) :
    ((runLoop env fc sc cmds none).2.1 = specFirstFailureCode env cmds) ∧
    (∀ fe, pyTruthy fe = true → (runLoop env fc sc cmds fe).2.1 = fe) ∧
    ((runLoop env true sc cmds none).1 = cmds.map stripCmd) ∧
    (∀ c, specFirstFailureCode env cmds = some c →
      (runLoop env true sc cmds none).2.2 = RunResult.aborted "" c) := by
  refine ⟨runLoop_none_fe env fc sc cmds, runLoop_truthy_fixed env fc sc cmds,
    runLoop_force_executed env sc cmds none, ?_⟩
  intro c hc
  have hfe : (runLoop env true sc cmds none).2.1 = some c := by
    rw [runLoop_none_fe env true sc cmds, hc]
  rw [runLoop_force_result env sc cmds none, hfe]
  simp [specFirstFailureCode_ne_zero env cmds c hc]

/-- Witness for C2 at the spec's own test vector
`["- fail1", "- fail2", "ok"]` with `force_continue = true`: all three
commands execute, `first_error_code` is fail1's exit code 2, and the batch
aborts with code 2 and no message. -/
theorem runLoop_first_error_code_witness :
    (runLoop envContinue true true ["- fail1", "- fail2", "ok"] none).1 =
      ["fail1", "fail2", "ok"] ∧
    (runLoop envContinue true true ["- fail1", "- fail2", "ok"] none).2.1 = some 2 ∧
    (runLoop envContinue true true ["- fail1", "- fail2", "ok"] none).2.2 =
      RunResult.aborted "" 2 := by
  have h := runLoop_first_error_code envContinue true true ["- fail1", "- fail2", "ok"]
  refine ⟨(h.2.2.1).trans (by decide), (h.1).trans (by decide), h.2.2.2 2 (by decide)⟩

/-! ## Claim C3: a non-continuable failure aborts immediately -/

/-- C3: when a command without the `"- "` marker fails under
`force_continue = false`, the loop stops at that command — nothing after it
executes — and aborts with text `"Failed with exit code: {code}"` and that
exit code when `show_code_on_error` is true, and with empty text (hence no
display) but the same exit code when it is false. -/
theorem runLoop_abort_on_failure (env : ShellEnv) (sc : Bool) (cmd : String)
    (rest : List String) (fe : Option Int)
    (hmark : pyStartsDash cmd = false) (hfail : env.run cmd ≠ 0) :
    runLoop env false sc (cmd :: rest) fe =
      ([cmd], pyOrElse fe (env.run cmd),
       if sc then
         RunResult.aborted ("Failed with exit code: " ++ toString (env.run cmd))
           (env.run cmd)
       else RunResult.aborted "" (env.run cmd)) := by
  have hstrip : stripCmd cmd = cmd := by simp [stripCmd, hmark]
  rw [runLoop_cons, hstrip, if_pos hfail]
  split
  · rename_i hcoe
    rw [hmark] at hcoe
    simp at hcoe
  · split <;> rfl

/-- Witness for C3: `boom` exits 7; with `show_code_on_error` true the
batch aborts with the message and code 7, with it false the batch aborts
with empty text and code 7; the later command never runs. -/
theorem runLoop_abort_on_failure_witness :
    runLoop envBoom false true ["boom", "later"] none =
      (["boom"], some 7, RunResult.aborted "Failed with exit code: 7" 7) ∧
    runLoop envBoom false false ["boom", "later"] none =
      (["boom"], some 7, RunResult.aborted "" 7) := by
  constructor
  · exact (runLoop_abort_on_failure envBoom true "boom" ["later"] none
      (by decide) (by decide)).trans (by decide)
  · exact (runLoop_abort_on_failure envBoom false "boom" ["later"] none
      (by decide) (by decide)).trans (by decide)

/-! ## Claim C4: the continue-on-error marker (corrected) -/

/-- Counterexample to C4 as stated: for the resolved command `"- - x"` the
marker is stripped only once, so the string actually passed to
`run_shell_command` is `"- x"`, which still carries the two-character
`"- "` prefix. -/
theorem marker_strip_counterexample :
    (runLoop envOkAll false true ["- - x"] none).1 = ["- x"] ∧
    pyStartsDash "- x" = true := by decide

/-- C4 as amended: a command's continue-on-error status is the logical OR
of `force_continue` and its own leading `"- "` marker, and the marker is
stripped exactly once — the string passed to `run_shell_command` is
`stripCmd cmd` (the original minus its first two characters when marked),
which may itself still begin with `"- "`. -/
theorem runLoop_marker_amended (env : ShellEnv) (fc sc : Bool) (cmd : String)
    (rest : List String) (fe : Option Int) :
    ((runLoop env fc sc (cmd :: rest) fe).1.head? = some (stripCmd cmd)) ∧
    (pyStartsDash cmd = true → stripCmd cmd = dropTwo cmd) ∧
    (pyStartsDash cmd = false → stripCmd cmd = cmd) ∧
    (env.run (stripCmd cmd) ≠ 0 → (fc || pyStartsDash cmd) = true →
      runLoop env fc sc (cmd :: rest) fe =
        (stripCmd cmd ::
          (runLoop env fc sc rest (pyOrElse fe (env.run (stripCmd cmd)))).1,
         (runLoop env fc sc rest (pyOrElse fe (env.run (stripCmd cmd)))).2)) ∧
    (env.run (stripCmd cmd) ≠ 0 → (fc || pyStartsDash cmd) = false →
      (runLoop env fc sc (cmd :: rest) fe).1 = [stripCmd cmd]) := by
  refine ⟨?_, ?_, ?_, ?_, ?_⟩
  · rw [runLoop_cons]
    split
    · split
      · rfl
      · split <;> rfl
    · rfl
  · intro h; simp [stripCmd, h]
  · intro h; simp [stripCmd, h]
  · intro hfail hcoe
    rw [runLoop_cons]
    simp [hfail, hcoe]
  · intro hfail hcoe
    rw [runLoop_cons]
    simp [hfail, hcoe]
    split <;> rfl

/-! ## Claim C6: forwarding mode preserves order, drains before abort -/

/-- C6: `attach_builder` processes lines strictly in emitted order — a
plain line's verbatim forward (`display_info(line, end='')`) happens
between the handling of the lines before it and the lines after it; a
tagged invocation whose decoded method is `abort` drains the subprocess
(`communicate()`) immediately before the dispatch; and a non-zero exit
code makes the parent abort with that code and no message (the trace ends
in the bare exit event, with no error display). -/
theorem attach_builder_protocol (decode : String → Invocation)
    (pre post : List String) (line : String) (rc : Int) :
    (isTagged line = false →
      attach_builder decode ⟨pre ++ line :: post, rc⟩ =
        attach_builder decode ⟨pre, 0⟩ ++ [Event.displayInfo line ""] ++
          attach_builder decode ⟨post, rc⟩) ∧
    (isTagged line = true → (decode (rstrip (payloadOf line))).method = "abort" →
      attach_line decode line =
        [Event.communicate,
         Event.dispatch "abort" (decode (rstrip (payloadOf line))).args
           (decode (rstrip (payloadOf line))).kwargs]) ∧
    (rc ≠ 0 →
      attach_builder decode ⟨pre, rc⟩ =
        (pre.map (attach_line decode)).flatten ++ [Event.exit rc]) := by
  refine ⟨?_, ?_, ?_⟩
  · intro hplain
    have hne : (strPartition line).1 ≠ "__HATCH__" := by
      intro h
      rw [isTagged, h] at hplain
      simp at hplain
    simp [attach_builder, attach_line, hne]
  · intro htag habort
    have heq : (strPartition line).1 = "__HATCH__" := by
      rw [isTagged] at htag
      exact eq_of_beq htag
    rw [attach_line, payloadOf] at *
    simp [heq, habort]
  · intro hrc
    simp [attach_builder, hrc, abortEvents]

/-- Witness for C6 at the spec's test vector: the stream
`["hello\n", "__HATCH__:aabb\n"]` forwards `"hello\n"` first and then
dispatches `display_info('world')` exactly once; a tagged `abort('stop')`
drains before dispatching; and exit code 9 appends the bare exit event. -/
theorem attach_builder_protocol_witness :
    attach_builder decodeInfo ⟨["hello\n", "__HATCH__:aabb\n"], 0⟩ =
      [Event.displayInfo "hello\n" "", Event.dispatch "display_info" ["world"] []] ∧
    attach_line decodeAbort "__HATCH__:00" =
      [Event.communicate, Event.dispatch "abort" ["stop"] []] ∧
    attach_builder decodeInfo ⟨["hello\n"], 9⟩ =
      [Event.displayInfo "hello\n" "", Event.exit 9] := by
  refine ⟨?_, ?_, ?_⟩
  · exact ((attach_builder_protocol decodeInfo [] ["__HATCH__:aabb\n"] "hello\n" 0).1
      (by decide)).trans (by decide)
  · exact ((attach_builder_protocol decodeAbort [] [] "__HATCH__:00" 0).2.1
      (by decide) (by decide)).trans (by decide)
  · exact ((attach_builder_protocol decodeInfo ["hello\n"] [] "x" 9).2.2
      (by decide)).trans (by decide)

/-! ## Claim C1: the dispatch table (corrected) -/

/-- Counterexample to C1 as stated: `attach_builder` dispatches the decoded
method name by open-ended `getattr` resolution on the host application —
here a tagged line decoding to the method `get_environment`, which is not
in the `SafeApplication` fixed table, is still dispatched rather than
rejected. -/
theorem facade_dispatch_counterexample :
    "get_environment" ∉ SafeApplication.table ∧
    Event.dispatch "get_environment" [] [] ∈
      attach_builder decodeGet ⟨["__HATCH__:00"], 0⟩ := by
  constructor
  · decide
  · decide

/-- C1 as amended: for every tagged line, `attach_builder` dispatches the
decoded method by open-ended name resolution on the host application,
whether or not the name is a member of the `SafeApplication` fixed table;
no table lookup or rejection occurs in the forwarding mode. -/
theorem attach_dispatch_unrestricted (decode : String → Invocation)
    (line : String) (h : isTagged line = true) :
    Event.dispatch (decode (rstrip (payloadOf line))).method
        (decode (rstrip (payloadOf line))).args
        (decode (rstrip (payloadOf line))).kwargs ∈ attach_line decode line := by
  have heq : (strPartition line).1 = "__HATCH__" := by
    rw [isTagged] at h
    exact eq_of_beq h
  rw [attach_line, payloadOf]
  simp only [heq, ne_eq, not_true_eq_false, if_false]
  exact List.mem_append_right _ (List.mem_singleton_self _)

/-- Witness for C1's amended theorem: the non-member method
`get_environment` is dispatched. -/
theorem attach_dispatch_unrestricted_witness :
    Event.dispatch "get_environment" [] [] ∈ attach_line decodeGet "__HATCH__:00" := by
  have h := attach_dispatch_unrestricted decodeGet "__HATCH__:00" (by decide)
  simpa [decodeGet] using h

/-! ## Claim C5: capture mode extracts text only -/

theorem readPieces_eq_map (decode : String → Invocation) (ls : List String)
    (h : ∀ l ∈ ls, isTagged l = true → (decode (payloadOf l)).args ≠ []) :
    readPieces decode ls =
      some (ls.map fun l =>
        if isTagged l then (decode (payloadOf l)).args.headD "" else l) := by
  induction ls with
  | nil => rfl
  | cons l rest ih =>
      have hl : readPiece decode l =
          some (if isTagged l then (decode (payloadOf l)).args.headD "" else l) := by
        by_cases ht : isTagged l = true
        · have heq : (strPartition l).1 = "__HATCH__" := by
            rw [isTagged] at ht
            exact eq_of_beq ht
          have hargs := h l (List.mem_cons_self l rest) ht
          rw [payloadOf] at hargs
          rw [readPiece, payloadOf]
          simp only [heq, ne_eq, not_true_eq_false, if_false, isTagged,
            beq_self_eq_true, if_true]
          cases harg : (decode (strPartition l).2.2).args with
          | nil => exact absurd harg hargs
          | cons a as => simp
        · have hne : (strPartition l).1 ≠ "__HATCH__" := by
            intro hx
            exact ht (by rw [isTagged, hx]; simp)
          simp [readPiece, hne, isTagged, ht]
      rw [readPieces, hl, ih (fun x hx => h x (List.mem_cons_of_mem l hx))]
      simp

/-- C5: under the precondition that every tagged line decodes to an
invocation with at least one positional argument, `read_builder` appends
each plain line verbatim and, for each tagged line, only the first
positional argument of the decoded invocation (the method name and
remaining arguments do not influence the result, and no facade dispatch
occurs — the result is a pure buffer); it returns the concatenated buffer
when the exit code is zero and otherwise calls `abort` with the buffer as
the message text and the child's exit code. -/
theorem read_builder_capture (decode : String → Invocation) (p : BuilderProcess)
    (h : ∀ l ∈ p.lines, isTagged l = true → (decode (payloadOf l)).args ≠ []) :
    read_builder decode p =
      some (if p.returncode ≠ 0 then
              ReadResult.aborted
                (String.join (p.lines.map fun l =>
                  if isTagged l then (decode (payloadOf l)).args.headD "" else l))
                p.returncode
            else
              ReadResult.returned
                (String.join (p.lines.map fun l =>
                  if isTagged l then (decode (payloadOf l)).args.headD "" else l))) := by
  rw [read_builder, readPieces_eq_map decode p.lines h]

/-- Witness for C5 at the spec's test vector: capture of
`["a", "__HATCH__:ff", "c"]` (the tagged payload decoding to
`('x', ['b'], {})`) with exit code zero returns the buffer `"abc"`; with
exit code 5 it aborts with the buffer as message and code 5. -/
theorem read_builder_capture_witness :
    read_builder decodeCap ⟨["a", "__HATCH__:ff", "c"], 0⟩ =
      some (ReadResult.returned "abc") ∧
    read_builder decodeCap ⟨["a", "__HATCH__:ff", "c"], 5⟩ =
      some (ReadResult.aborted "abc" 5) := by
  constructor
  · exact (read_builder_capture decodeCap ⟨["a", "__HATCH__:ff", "c"], 0⟩
      (by decide)).trans (by decide)
  · exact (read_builder_capture decodeCap ⟨["a", "__HATCH__:ff", "c"], 5⟩
      (by decide)).trans (by decide)

/-! ## Claim C10: capture mode is total exactly on well-formed streams -/

theorem readPieces_isSome_iff (decode : String → Invocation) (ls : List String) :
    (readPieces decode ls).isSome = true ↔
      ∀ l ∈ ls, isTagged l = true → (decode (payloadOf l)).args ≠ [] := by
  induction ls with
  | nil => simp [readPieces]
  | cons l rest ih =>
      have hpiece : (readPiece decode l).isSome = true ↔
          (isTagged l = true → (decode (payloadOf l)).args ≠ []) := by
        by_cases ht : isTagged l = true
        · have heq : (strPartition l).1 = "__HATCH__" := by
            rw [isTagged] at ht
            exact eq_of_beq ht
          rw [readPiece, payloadOf]
          simp only [heq, ne_eq, not_true_eq_false, if_false, ht, true_implies]
          cases (decode (strPartition l).2.2).args <;> simp
        · have hne : (strPartition l).1 ≠ "__HATCH__" := by
            intro hx
            exact ht (by rw [isTagged, hx]; simp)
          simp [readPiece, hne, ht]
      rw [readPieces]
      constructor
      · intro hsome
        cases h1 : readPiece decode l with
        | none => rw [h1] at hsome; cases h2 : readPieces decode rest <;>
            rw [h2] at hsome <;> simp at hsome
        | some s =>
            cases h2 : readPieces decode rest with
            | none => rw [h1, h2] at hsome; simp at hsome
            | some ss =>
                intro x hx
                rcases List.mem_cons.mp hx with hxl | hxr
                · subst hxl
                  exact hpiece.mp (by rw [h1]; rfl)
                · exact (ih.mp (by rw [h2]; rfl)) x hxr
      · intro hall
        have h1 : (readPiece decode l).isSome = true :=
          hpiece.mpr (hall l (List.mem_cons_self l rest))
        have h2 : (readPieces decode rest).isSome = true :=
          ih.mpr (fun x hx => hall x (List.mem_cons_of_mem l hx))
        cases hp1 : readPiece decode l with
        | none => rw [hp1] at h1; simp at h1
        | some s =>
            cases hp2 : readPieces decode rest with
            | none => rw [hp2] at h2; simp at h2
            | some ss => simp

/-- C10: `read_builder` has a defined result exactly when every tagged
line's decoded invocation carries at least one positional argument —
`args[0]` is extracted unconditionally, so a tagged line with an empty
positional-argument sequence leaves the capture undefined, while plain
lines and well-formed tagged lines are always handled. -/
theorem read_builder_total_iff (decode : String → Invocation) (p : BuilderProcess) :
    (read_builder decode p).isSome = true ↔
      ∀ l ∈ p.lines, isTagged l = true → (decode (payloadOf l)).args ≠ [] := by
  rw [read_builder]
  cases hr : readPieces decode p.lines with
  | none =>
      rw [← readPieces_isSome_iff decode p.lines, hr]
      simp
  | some pieces =>
      rw [← readPieces_isSome_iff decode p.lines, hr]
      simp

/-- Witness for C10: a stream with one tagged line decoding to an empty
argument sequence has no defined capture result. -/
theorem read_builder_total_iff_witness :
    (read_builder decodeNoArgs ⟨["__HATCH__:zz"], 0⟩).isSome = false := by
  cases hb : (read_builder decodeNoArgs ⟨["__HATCH__:zz"], 0⟩).isSome with
  | false => rfl
  | true =>
      exact absurd
        ((read_builder_total_iff decodeNoArgs ⟨["__HATCH__:zz"], 0⟩).mp hb)
        (by decide)

/-! ## Claim C7: the provisioning life cycle -/

/-- C7: `prepare_environment` calls `create()` exactly when the
environment did not exist at the initial check; runs the install steps
(`install_project_dev_mode()` when `dev_mode` else `install_project()`)
exactly when the environment did not exist and `skip_install` is false;
runs the pre- and post-install command batches exactly when additionally they
are non-empty; checks `dependencies_in_sync()` unconditionally — even for
an environment that already existed — and calls `sync_dependencies()` if
and only if that check is false. -/
theorem prepare_environment_lifecycle (env : ProvEnv) :
    ((ProvAction.create ∈ prepare_environment env) ↔ env.exists_ = false) ∧
    ((ProvAction.installProjectDevMode ∈ prepare_environment env) ↔
      (env.exists_ = false ∧ env.skip_install = false ∧ env.dev_mode = true)) ∧
    ((ProvAction.installProject ∈ prepare_environment env) ↔
      (env.exists_ = false ∧ env.skip_install = false ∧ env.dev_mode = false)) ∧
    ((ProvAction.runCommands "pre-install" env.pre_install_commands ∈
        prepare_environment env) ↔
      (env.exists_ = false ∧ env.skip_install = false ∧
        env.pre_install_commands ≠ [])) ∧
    ((ProvAction.runCommands "post-install" env.post_install_commands ∈
        prepare_environment env) ↔
      (env.exists_ = false ∧ env.skip_install = false ∧
        env.post_install_commands ≠ [])) ∧
    (ProvAction.checkDependencies ∈ prepare_environment env) ∧
    ((ProvAction.syncDependencies ∈ prepare_environment env) ↔
      env.dependencies_in_sync = false) := by
  obtain ⟨ex, sk, dev, pre, post, sync⟩ := env
  by_cases hpre : pre = [] <;> by_cases hpost : post = [] <;>
    cases ex <;> cases sk <;> cases dev <;> cases sync <;>
      simp [prepare_environment, hpre, hpost]

/-! ## Claim C8: the plugin-dependency installer -/

/-- C8: `ensure_plugin_dependencies` is a no-op (no status display, no
subprocess invocation) when the dependency list is empty or when
`dependencies_in_sync` holds of it; otherwise it performs exactly a status
display followed by one checked command of the shape
`[interpreter, "-u", "-m", "pip", "install", "--disable-pip-version-check",
"--no-python-version-warning"]` ++ verbosity flags for the current
verbosity adjusted by `-1` ++ the dependency specifications in order. -/
theorem ensure_plugin_dependencies_shape (ctx : InstallerCtx)
    (dependencies : List String) (wait_message : String) :
    (dependencies = [] → ensure_plugin_dependencies ctx dependencies wait_message = []) ∧
    (ctx.dependencies_in_sync dependencies = true →
      ensure_plugin_dependencies ctx dependencies wait_message = []) ∧
    (dependencies ≠ [] → ctx.dependencies_in_sync dependencies = false →
      ensure_plugin_dependencies ctx dependencies wait_message =
        [InstallAction.statusShow wait_message,
         InstallAction.checkCommand
           ([ctx.executable, "-u", "-m", "pip", "install",
             "--disable-pip-version-check", "--no-python-version-warning"] ++
            ctx.vflag (ctx.verbosity - 1) ++ dependencies)]) := by
  refine ⟨?_, ?_, ?_⟩
  · intro h
    simp [ensure_plugin_dependencies, h]
  · intro h
    simp [ensure_plugin_dependencies, h]
  · intro hne hsync
    rw [ensure_plugin_dependencies, if_neg hne, if_neg (by simp [hsync])]
    have : ctx.verbosity + (-1) = ctx.verbosity - 1 := by ring
    simp [add_verbosity_flag, this]

/-- Witness for C8: the empty list and an in-sync list are no-ops; a
non-empty out-of-sync list produces the status display and the full pip
invocation with the `-q` flag for adjusted verbosity `-1`. -/
theorem ensure_plugin_dependencies_shape_witness :
    ensure_plugin_dependencies ctxW [] "w" = [] ∧
    ensure_plugin_dependencies ctxW ["ok-dep"] "w" = [] ∧
    ensure_plugin_dependencies ctxW ["foo>=1", "bar"] "Syncing" =
      [InstallAction.statusShow "Syncing",
       InstallAction.checkCommand
         ["python", "-u", "-m", "pip", "install", "--disable-pip-version-check",
          "--no-python-version-warning", "-q", "foo>=1", "bar"]] := by
  refine ⟨?_, ?_, ?_⟩
  · exact (ensure_plugin_dependencies_shape ctxW [] "w").1 rfl
  · exact (ensure_plugin_dependencies_shape ctxW ["ok-dep"] "w").2.1 (by decide)
  · exact ((ensure_plugin_dependencies_shape ctxW ["foo>=1", "bar"] "Syncing").2.2
      (by decide) (by decide)).trans (by decide)

/-! ## Claim C9: the abort primitive -/

/-- C9: `abort` with the default empty text displays nothing and performs
only the exit call; for every text and code the exit function is invoked
exactly once, as the final event after any message display; and a
resolution failure with an empty exception message makes
`run_shell_commands` abort with text `''` and the default code 1 — hence
no output and exit code 1. -/
theorem abort_primitive (text : String) (code : Int) (env : ShellEnv)
    (commands : List String) (fc sc : Bool) :
    (abortEvents "" code = [Event.exit code]) ∧
    ((abortEvents text code).filter Event.isExit = [Event.exit code]) ∧
    ((abortEvents text code).getLast? = some (Event.exit code)) ∧
    (env.resolve commands = Except.error "" →
      run_shell_commands env commands fc sc = ([], none, RunResult.aborted "" 1) ∧
      abortEvents "" 1 = [Event.exit 1]) := by
  refine ⟨rfl, ?_, ?_, ?_⟩
  · rw [abortEvents]
    split <;> simp [Event.isExit]
  · rw [abortEvents]
    split <;> simp
  · intro hres
    constructor
    · rw [run_shell_commands, hres]
    · rfl

/-- Witness for C9: with the failing resolver, a batch aborts with empty
text and exit code 1 — no display event, one exit event. -/
theorem abort_primitive_witness :
    run_shell_commands envResolveFail ["x"] false true =
      ([], none, RunResult.aborted "" 1) ∧
    abortEvents "" 1 = [Event.exit 1] := by
  exact (abort_primitive "" 1 envResolveFail ["x"] false true).2.2.2 rfl

/-- Witness for C4's amended theorem: the marked command `"- boom"`
continues past its failure even with `force_continue = false` (the OR with
its own marker), and the string executed is `"boom"`, the original minus
one marker. -/
theorem runLoop_marker_amended_witness :
    runLoop envBoom false true ["- boom"] none =
      (["boom"], some 7, RunResult.ok) := by
  have h := (runLoop_marker_amended envBoom false true "- boom" [] none).2.2.2.1
    (by decide) (by decide)
  exact h.trans (by decide)
